import Mathlib

/-!
Verification of the snapshot-transfer orchestrator (`copy-snapshot.py`,
`ipf-mv-snap.py`): a shallow embedding of the selection parser, the
credential normalizer, the upload driver's response classification, the
single-transfer routine with its artifact cleanup, and the batch loop,
together with theorems settling the specification's claims.
-/

namespace IpfCopySnapshot

/-! ## Selection parsing (`parse_selection` in copy-snapshot.py)

The Python function removes spaces, splits the string on commas, and for
each comma-separated token either expands a leading `a-b` range (matched by
the anchored regular expression on two digit groups) or accepts a pure digit
token, keeping only 1-based indices within `[1, max_index]` and storing them
0-based in a set; the set is returned sorted ascending.  The Python set is
modelled by concatenating every token's contribution and deduplicating;
`sorted` is modelled by insertion sort, which agrees with any sort on a
duplicate-free list. -/

/-- `selection.replace(" ", "")`: the characters of the string with every
space removed. -/
def stripSpaces (s : String) : List Char :=
  s.data.filter (fun c => c != ' ')

/-- `str.split(",")`: split on commas, keeping empty tokens. -/
def splitOnComma : List Char → List (List Char)
  | [] => [[]]
  | c :: rest =>
    match splitOnComma rest with
    | [] => [[]]
    | p :: ps => if c = ',' then [] :: p :: ps else (c :: p) :: ps

/-- The longest leading run of ASCII digits (the greedy `\d+`). -/
def takeDigits (cs : List Char) : List Char :=
  cs.takeWhile Char.isDigit

/-- What remains after the longest leading run of ASCII digits. -/
def dropDigits (cs : List Char) : List Char :=
  cs.dropWhile Char.isDigit

/-- `int(...)` on a digit string. -/
def digitsToNat (cs : List Char) : Nat :=
  cs.foldl (fun n c => n * 10 + (c.toNat - '0'.toNat)) 0

/-- `re.match(r"(\d+)-(\d+)", part)`: an anchored match of two digit groups
separated by a dash; trailing characters are not consumed.  Greedy digit
groups need no backtracking because a digit is never a dash. -/
def matchRange (cs : List Char) : Option (Nat × Nat) :=
  let d1 := takeDigits cs
  if d1 = [] then none
  else
    match dropDigits cs with
    | '-' :: rest =>
      let d2 := takeDigits rest
      if d2 = [] then none else some (digitsToNat d1, digitsToNat d2)
    | _ => none

/-- The 0-based indices one comma-separated token contributes: a token
holding a dash is treated as a range (silently skipped unless the anchored
regex matches), any other token must be all digits; out-of-range indices
are silently dropped. -/
def partIndices (maxIndex : Nat) (cs : List Char) : List Nat :=
  if cs.contains '-' then
    match matchRange cs with
    | some (a, b) =>
      ((List.range' a (b + 1 - a)).filter
        (fun i => decide (1 ≤ i) && decide (i ≤ maxIndex))).map (fun i => i - 1)
    | none => []
  else if !cs.isEmpty && cs.all Char.isDigit then
    if decide (1 ≤ digitsToNat cs) && decide (digitsToNat cs ≤ maxIndex) then
      [digitsToNat cs - 1]
    else []
  else []

/-- All indices contributed by all tokens, in token order, duplicates kept
(the Python set collapses them; see `parse_selection`). -/
def selectionIndices (maxIndex : Nat) (tokens : List (List Char)) : List Nat :=
  tokens.flatMap (partIndices maxIndex)

/-- `parse_selection(selection, max_index)`: the sorted list of distinct
0-based indices selected by the string. -/
def parse_selection (selection : String) (max_index : Nat) : List Nat :=
  List.insertionSort (· ≤ ·)
    (selectionIndices max_index (splitOnComma (stripSpaces selection))).dedup

example : parse_selection " 2 , 1 " 10 = [0, 1] := by decide
example : parse_selection "7" 10 = [6] := by decide
example : parse_selection "x,,-2" 10 = [] := by decide

/-- In interactive mode the snapshots processed are
`[all_snapshots[i] for i in selected_indices]`, with the listing in its
displayed (date-sorted) order. -/
def selected_snapshots {α : Type} (listing : List α) (sel : String) : List α :=
  (parse_selection sel listing.length).filterMap (fun i => listing.get? i)

/-! ### Invariants of the selection parser -/

lemma partIndices_lt {N : Nat} {cs : List Char} {x : Nat}
    (h : x ∈ partIndices N cs) : x < N := by
  unfold partIndices at h
  split at h
  · split at h
    · next a b heq =>
      simp only [List.mem_map, List.mem_filter, List.mem_range',
        Bool.and_eq_true, decide_eq_true_eq] at h
      obtain ⟨i, ⟨_, h1, h2⟩, rfl⟩ := h
      omega
    · simp at h
  · split at h
    · split at h
      · next hb =>
        simp only [Bool.and_eq_true, decide_eq_true_eq] at hb
        simp only [List.mem_singleton] at h
        omega
      · simp at h
    · simp at h

lemma selectionIndices_lt {N : Nat} {tokens : List (List Char)} {x : Nat}
    (h : x ∈ selectionIndices N tokens) : x < N := by
  unfold selectionIndices at h
  simp only [List.mem_flatMap] at h
  obtain ⟨cs, _, hx⟩ := h
  exact partIndices_lt hx

lemma mem_parse_selection {s : String} {N x : Nat} :
    x ∈ parse_selection s N ↔
      x ∈ selectionIndices N (splitOnComma (stripSpaces s)) := by
  unfold parse_selection
  rw [(List.perm_insertionSort _ _).mem_iff, List.mem_dedup]

lemma parse_selection_sorted (s : String) (N : Nat) :
    List.Sorted (· < ·) (parse_selection s N) := by
  have hle : List.Sorted (· ≤ ·) (parse_selection s N) :=
    List.sorted_insertionSort _ _
  have hnd : (parse_selection s N).Nodup :=
    ((List.perm_insertionSort (· ≤ ·) _).nodup_iff).mpr (List.nodup_dedup _)
  exact hle.lt_of_le hnd

lemma parse_selection_bound {s : String} {N x : Nat}
    (h : x ∈ parse_selection s N) : x < N :=
  selectionIndices_lt (mem_parse_selection.mp h)

lemma parse_selection_parts_perm (s₁ s₂ : String) (N : Nat)
    (hp : List.Perm (splitOnComma (stripSpaces s₁)) (splitOnComma (stripSpaces s₂))) :
    parse_selection s₁ N = parse_selection s₂ N := by
  unfold parse_selection
  have h1 := List.perm_insertionSort (· ≤ ·)
    (selectionIndices N (splitOnComma (stripSpaces s₁))).dedup
  have h2 := List.perm_insertionSort (· ≤ ·)
    (selectionIndices N (splitOnComma (stripSpaces s₂))).dedup
  exact List.eq_of_perm_of_sorted
    (h1.trans (((hp.flatMap_right (partIndices N)).dedup).trans h2.symm))
    (List.sorted_insertionSort _ _) (List.sorted_insertionSort _ _)

/-! ### Sorted index lists select a sublist of the listing -/

lemma filterMap_get_shift {α : Type} (x : α) (xs : List α) :
    ∀ (l : List Nat), (∀ i ∈ l, 1 ≤ i) →
      l.filterMap (fun i => (x :: xs).get? i) =
        (l.map (fun i => i - 1)).filterMap (fun i => xs.get? i) := by
  intro l
  induction l with
  | nil => intro _; rfl
  | cons i t ih =>
    intro h
    have hi : 1 ≤ i := h i (List.mem_cons_self i t)
    obtain ⟨j, rfl⟩ : ∃ j, i = j + 1 := ⟨i - 1, by omega⟩
    have htail := ih (fun y hy => h y (List.mem_cons_of_mem _ hy))
    simp only [List.filterMap_cons, List.map_cons, List.get?_cons_succ,
      Nat.add_sub_cancel, htail]

lemma sorted_map_pred {l : List Nat} (h : List.Sorted (· < ·) l)
    (h1 : ∀ i ∈ l, 1 ≤ i) :
    List.Sorted (· < ·) (l.map (fun i => i - 1)) := by
  induction l with
  | nil => simp
  | cons a t ih =>
    simp only [List.map_cons, List.sorted_cons] at *
    constructor
    · intro b hb
      simp only [List.mem_map] at hb
      obtain ⟨j, hj, rfl⟩ := hb
      have := h.1 j hj
      have := h1 a (List.mem_cons_self a t)
      omega
    · exact ih h.2 (fun i hi => h1 i (List.mem_cons_of_mem _ hi))

lemma sorted_filterMap_sublist {α : Type} :
    ∀ (xs : List α) (l : List Nat), List.Sorted (· < ·) l →
      List.Sublist (l.filterMap (fun i => xs.get? i)) xs := by
  intro xs
  induction xs with
  | nil =>
    intro l _
    have : l.filterMap (fun i => ([] : List α).get? i) = [] := by
      rw [List.filterMap_eq_nil_iff]
      intro a _
      simp
    simp [this]
  | cons x xs ih =>
    intro l hl
    rcases l with _ | ⟨i, t⟩
    · simp
    rcases i with _ | j
    · have ht : ∀ i ∈ t, 1 ≤ i := by
        intro i hi
        have := List.rel_of_sorted_cons hl i hi
        omega
      rw [List.filterMap_cons]
      simp only [List.get?_cons_zero]
      rw [filterMap_get_shift x xs t ht]
      exact List.Sublist.cons₂ x
        (ih _ (sorted_map_pred (List.sorted_cons.mp hl).2 ht))
    · have hall : ∀ i ∈ (j + 1) :: t, 1 ≤ i := by
        intro i hi
        rcases List.mem_cons.mp hi with rfl | hmem
        · omega
        · have := List.rel_of_sorted_cons hl i hmem
          omega
      rw [filterMap_get_shift x xs _ hall]
      exact List.Sublist.cons x (ih _ (sorted_map_pred hl hall))

lemma selected_snapshots_sublist {α : Type} (listing : List α) (sel : String) :
    List.Sublist (selected_snapshots listing sel) listing :=
  sorted_filterMap_sublist listing _ (parse_selection_sorted sel listing.length)

/-! ## The single-transfer routine (`copy_single_snapshot` in copy-snapshot.py)

The routine wraps everything in an outer `try`; the upload call sits in an
inner `try` whose handler deletes the file (when not kept) and reports
`"Upload failed: {exc}"`.  An exception raised by `unlink()` inside either
cleanup escapes to the outer handler, which reports `str(exc)` of whatever
exception reached it.  The effectful steps (download, upload, unlink) are
modelled by an environment recording whether each one succeeds and with which
exception message it fails; the artifact's file is modelled by an
`Option String` holding the downloaded bytes while the file exists. -/

/-- Outcomes of the external calls a single transfer makes. -/
structure TransferEnv where
  /-- `snapshot.download(...)` returns a path (`true`) or raises (`false`). -/
  downloadOk : Bool
  /-- `str(exc)` of the download exception. -/
  downloadErr : String
  /-- The downloaded bytes (the artifact file's content). -/
  content : String
  /-- `snap_upload(...)` returns (`true`) or raises (`false`). -/
  uploadOk : Bool
  /-- `str(exc)` of the upload exception. -/
  uploadErr : String
  /-- `download_path.unlink()` returns (`true`) or raises (`false`). -/
  unlinkOk : Bool
  /-- `str(exc)` of the unlink exception. -/
  unlinkErr : String
deriving DecidableEq, Repr

/-- What a single transfer returns and leaves behind: the `(success, error)`
pair of `copy_single_snapshot` and the artifact file afterwards (`none` if
it does not exist, `some c` if it exists with content `c`). -/
structure TransferResult where
  success : Bool
  message : String
  fileState : Option String
deriving DecidableEq, Repr

/-- `copy_single_snapshot(...)`: download, upload via `snap_upload`, delete
the file unless `keep_dl_file`; every exception is caught at this
function's boundary and turned into `(False, message)`. -/
def copy_single_snapshot (env : TransferEnv) (keep_dl_file : Bool) : TransferResult :=
  if !env.downloadOk then
    { success := false, message := env.downloadErr, fileState := none }
  else if env.uploadOk then
    if keep_dl_file then
      { success := true, message := "", fileState := some env.content }
    else if env.unlinkOk then
      { success := true, message := "", fileState := none }
    else
      { success := false, message := env.unlinkErr, fileState := some env.content }
  else
    if keep_dl_file then
      { success := false, message := "Upload failed: " ++ env.uploadErr,
        fileState := some env.content }
    else if env.unlinkOk then
      { success := false, message := "Upload failed: " ++ env.uploadErr,
        fileState := none }
    else
      { success := false, message := env.unlinkErr, fileState := some env.content }

/-! ## The upload driver (`snap_upload` in copy-snapshot.py)

`snap_upload` discovers the API version (raising on a non-success status),
posts the file, returns `None` after printing a notice when the destination
answers 400 with code `API_SNAPSHOT_CONFLICT`, raises on any other
non-success status, and otherwise returns the parsed response body. -/

/-- The destination's response to the upload POST, as the fields the code
reads: HTTP status, the JSON `code` field, the JSON `data.snapshot` field,
and the parsed body that a successful call returns. -/
structure UploadResp where
  status : Nat
  errCode : Option String
  dataSnapshot : Option String
  body : String
deriving DecidableEq, Repr

/-- The external calls `snap_upload` makes: whether `GET /api/version`
succeeds, and the response to the upload POST. -/
structure UploadEnv where
  versionOk : Bool
  resp : UploadResp
deriving DecidableEq, Repr

instance {ε α : Type} [DecidableEq ε] [DecidableEq α] : DecidableEq (Except ε α) :=
  fun a b =>
    match a, b with
    | .ok x, .ok y =>
      if h : x = y then isTrue (by rw [h]) else isFalse (by simp [h])
    | .error x, .error y =>
      if h : x = y then isTrue (by rw [h]) else isFalse (by simp [h])
    | .ok _, .error _ => isFalse (by simp)
    | .error _, .ok _ => isFalse (by simp)

/-- What `snap_upload` produces: its return value (`Except` models raising;
`Option` models Python's `None`) and the line printed to stdout, if any. -/
structure SnapUploadOut where
  result : Except String (Option String)
  printed : Option String
deriving DecidableEq, Repr

/-- `snap_upload(server_dst, filename, api_token)`. -/
def snap_upload (env : UploadEnv) : SnapUploadOut :=
  if !env.versionOk then
    { result := .error "version request failed", printed := none }
  else if env.resp.status == 400 && env.resp.errCode == some "API_SNAPSHOT_CONFLICT" then
    { result := .ok none,
      printed := some ("SNAPSHOT ID " ++ env.resp.dataSnapshot.getD "None"
        ++ " already uploaded") }
  else if 200 ≤ env.resp.status && env.resp.status < 300 then
    { result := .ok (some env.resp.body), printed := none }
  else
    { result := .error ("HTTP status " ++ toString env.resp.status),
      printed := none }

/-! ## Single-item (non-interactive) mode of the two scripts

Only exit status and artifact-file existence are modelled.  An uncaught
Python exception terminates the process with status 1; `raise typer.Exit(n)`
with status `n`; a bare `sys.exit()` raises `SystemExit(None)`, which
terminates the process with status 0. -/

/-- How the download step ends: the library call raises, returns a falsy
value (no file was produced), or returns a path to the artifact. -/
inductive DlOutcome where
  | raises
  | nofile
  | ok
deriving DecidableEq, Repr

/-- Exit status of the process and whether the artifact file exists after
it terminates. -/
structure MainOut where
  exitCode : Nat
  fileExists : Bool
deriving DecidableEq, Repr

/-- Non-interactive mode of `copy-snapshot.py`'s `main`: download (an
exception is uncaught; a falsy path raises `AttributeError` on
`download_path.absolute()`), upload in a `try` whose handler deletes the
file when not kept and then calls bare `sys.exit()`, then deletion when not
kept on the fall-through path. -/
def main_single (dl : DlOutcome) (uploadOk unlinkOk keep_dl_file : Bool) : MainOut :=
  match dl with
  | .raises => { exitCode := 1, fileExists := false }
  | .nofile => { exitCode := 1, fileExists := false }
  | .ok =>
    if uploadOk then
      if keep_dl_file then { exitCode := 0, fileExists := true }
      else if unlinkOk then { exitCode := 0, fileExists := false }
      else { exitCode := 1, fileExists := true }
    else
      if keep_dl_file then { exitCode := 0, fileExists := true }
      else if unlinkOk then { exitCode := 0, fileExists := false }
      else { exitCode := 1, fileExists := true }

/-- `ipf-mv-snap.py`'s `main`: a falsy download path is answered with a bare
`sys.exit()`; construction of the destination client is in a `try` that only
disables the upload; the upload call itself is not guarded, so its exception
is uncaught and the deletion step is never reached. -/
def mv_main (dl : DlOutcome) (clientOk uploadOk unlinkOk keep_dl_file : Bool) : MainOut :=
  match dl with
  | .raises => { exitCode := 1, fileExists := false }
  | .nofile => { exitCode := 0, fileExists := false }
  | .ok =>
    if clientOk then
      if uploadOk then
        if keep_dl_file then { exitCode := 0, fileExists := true }
        else if unlinkOk then { exitCode := 0, fileExists := false }
        else { exitCode := 1, fileExists := true }
      else { exitCode := 1, fileExists := true }
    else
      if keep_dl_file then { exitCode := 0, fileExists := true }
      else if unlinkOk then { exitCode := 0, fileExists := false }
      else { exitCode := 1, fileExists := true }

/-! ## The batch loop (interactive mode of `main` in copy-snapshot.py)

Each selected snapshot is passed to `copy_single_snapshot`; on `(True, _)`
the snapshot is appended to `results["success"]`, otherwise
`(snapshot, error)` is appended to `results["failed"]`. -/

/-- The per-item loop over the selected snapshots. -/
def run_batch {α : Type} (outcome : α → Bool × String) (snaps : List α) :
    List α × List (α × String) :=
  snaps.foldl
    (fun res snap =>
      if (outcome snap).1 then (res.1 ++ [snap], res.2)
      else (res.1, res.2 ++ [(snap, (outcome snap).2)]))
    ([], [])

lemma run_batch_go {α : Type} (outcome : α → Bool × String) (snaps : List α) :
    ∀ (a : List α) (b : List (α × String)),
      snaps.foldl
        (fun res snap =>
          if (outcome snap).1 then (res.1 ++ [snap], res.2)
          else (res.1, res.2 ++ [(snap, (outcome snap).2)]))
        (a, b) =
      (a ++ snaps.filter (fun s => (outcome s).1),
       b ++ (snaps.filter (fun s => !(outcome s).1)).map
         (fun s => (s, (outcome s).2))) := by
  induction snaps with
  | nil => simp
  | cons s rest ih =>
    intro a b
    cases h : (outcome s).1 <;>
      simp [List.foldl_cons, h, List.filter_cons, ih]

lemma run_batch_spec {α : Type} (outcome : α → Bool × String) (snaps : List α) :
    run_batch outcome snaps =
      (snaps.filter (fun s => (outcome s).1),
       (snaps.filter (fun s => !(outcome s).1)).map (fun s => (s, (outcome s).2))) := by
  unfold run_batch
  rw [run_batch_go]
  simp

lemma length_filter_not {α : Type} (p : α → Bool) (l : List α) :
    (l.filter p).length + (l.filter (fun a => !p a)).length = l.length := by
  induction l with
  | nil => rfl
  | cons a t ih => cases h : p a <;> simp [List.filter_cons, h] <;> omega

/-! ## The credential normalizer (`parse_auth` in copy-snapshot.py)

`parse_auth` raises `TypeError` on a non-string argument; on a string that
both starts with `(` and ends with `)` it returns whatever
`ast.literal_eval` evaluates the string to (any Python literal, not
necessarily a pair), falling back to the string itself if evaluation fails;
any other string is returned unchanged.  Python values are modelled by
`PyValue`; `literal_eval` is modelled by a recursive-descent parser for the
literal forms the credential field can carry (quoted strings, integers,
parenthesized tuples, following Python's rule that a parenthesized single
literal without a comma is not a tuple). -/

/-- A Python literal value. -/
inductive PyValue where
  | str : String → PyValue
  | int : Int → PyValue
  | tuple : List PyValue → PyValue

/-- Whether the Python value is a `str`. -/
def PyValue.isStr : PyValue → Bool
  | .str _ => true
  | _ => false

/-- Leading spaces skipped. -/
def skipWs : List Char → List Char
  | ' ' :: rest => skipWs rest
  | cs => cs

/-- Scan up to the closing quote `q`: the quoted text and the rest. -/
def scanStr (q : Char) : List Char → Option (List Char × List Char)
  | [] => none
  | c :: rest =>
    if c = q then some ([], rest)
    else (scanStr q rest).map (fun p => (c :: p.1, p.2))

mutual

/-- Parse one Python literal (fuel-bounded recursive descent). -/
def parseLit : Nat → List Char → Option (PyValue × List Char)
  | 0, _ => none
  | Nat.succ fuel, cs =>
    match skipWs cs with
    | [] => none
    | '\'' :: rest =>
      match scanStr '\'' rest with
      | some (body, r) => some (.str (String.mk body), r)
      | none => none
    | '"' :: rest =>
      match scanStr '"' rest with
      | some (body, r) => some (.str (String.mk body), r)
      | none => none
    | '(' :: rest => parseParen fuel (skipWs rest)
    | '-' :: rest =>
      if takeDigits rest = [] then none
      else some (.int (-(digitsToNat (takeDigits rest) : Int)), dropDigits rest)
    | c :: rest =>
      if c.isDigit then
        some (.int (digitsToNat (takeDigits (c :: rest))), dropDigits (c :: rest))
      else none

/-- After an opening parenthesis: an empty tuple, or a first element
followed by `parseItems`. -/
def parseParen : Nat → List Char → Option (PyValue × List Char)
  | 0, _ => none
  | Nat.succ fuel, cs =>
    match cs with
    | ')' :: r => some (.tuple [], r)
    | _ =>
      match parseLit fuel cs with
      | none => none
      | some (v, r) => parseItems fuel false [v] (skipWs r)

/-- After an element inside parentheses: close (a lone parenthesized
literal with no comma is the literal itself, otherwise a tuple), or a comma
followed by a further element or a trailing close.  `acc` holds the
elements in reverse. -/
def parseItems : Nat → Bool → List PyValue → List Char → Option (PyValue × List Char)
  | 0, _, _, _ => none
  | Nat.succ fuel, sawComma, acc, cs =>
    match cs with
    | ')' :: r =>
      match acc, sawComma with
      | [v], false => some (v, r)
      | _, _ => some (.tuple acc.reverse, r)
    | ',' :: r =>
      match skipWs r with
      | ')' :: r2 => some (.tuple acc.reverse, r2)
      | cs2 =>
        match parseLit fuel cs2 with
        | none => none
        | some (v, r2) => parseItems fuel true (v :: acc) (skipWs r2)
    | _ => none

end

/-- `ast.literal_eval` on the literal forms modelled here: the whole string
must parse as one literal, up to surrounding spaces. -/
def literal_eval (s : String) : Option PyValue :=
  match parseLit (s.length + 2) s.data with
  | some (v, rest) => if skipWs rest = [] then some v else none
  | none => none

/-- `auth.startswith("(")`: the first character is an opening parenthesis. -/
def startsWithParen (s : String) : Bool :=
  match s.data with
  | '(' :: _ => true
  | _ => false

/-- `auth.endswith(")")`: the last character is a closing parenthesis. -/
def endsWithParen (s : String) : Bool :=
  match s.data.getLast? with
  | some ')' => true
  | _ => false

/-- `parse_auth(auth)`: `TypeError` on a non-string; best-effort literal
evaluation of a string shaped `(...)`, falling back to the unchanged
string; any other string unchanged. -/
def parse_auth (auth : PyValue) : Except String PyValue :=
  match auth with
  | .str s =>
    if startsWithParen s && endsWithParen s then
      match literal_eval s with
      | some v => .ok v
      | none => .ok (.str s)
    else .ok (.str s)
  | _ => .error "auth must be a string."

example : literal_eval "('admin','secret')"
    = some (.tuple [.str "admin", .str "secret"]) := by rfl
example : literal_eval "(1,2,3)"
    = some (.tuple [.int 1, .int 2, .int 3]) := by rfl
example : literal_eval "(5)" = some (.int 5) := by rfl
example : literal_eval "(5,)" = some (.tuple [.int 5]) := by rfl
example : literal_eval "()" = some (.tuple []) := by rfl
example : literal_eval "(not a tuple)" = none := by rfl
example : parse_auth (.str "mytoken") = .ok (.str "mytoken") := by rfl
example : parse_auth (.str "('admin','secret')")
    = .ok (.tuple [.str "admin", .str "secret"]) := by rfl

/-! ## Claim theorems -/

/-- Claim C1: the claim says a failing download or upload step in
single-item mode terminates the process with a non-zero exit status.  The
code does not: on an upload failure without `--keep` it runs a bare
`sys.exit()`, which exits with status 0; with `--keep` it falls through and
finishes normally (status 0); and `ipf-mv-snap.py` answers a download that
produced no file with the same bare `sys.exit()` (status 0).  Only an
uncaught download exception gives a non-zero status.  This theorem
evaluates the embedded `main` models at those failing inputs. -/
theorem single_mode_failure_exit_status :
    (main_single .ok false true false).exitCode = 0 ∧
    (main_single .ok false true true).exitCode = 0 ∧
    (mv_main .nofile true true true false).exitCode = 0 ∧
    (main_single .raises true true false).exitCode = 1 := by decide

/-- Claim C2 counterexample: on a 400 `API_SNAPSHOT_CONFLICT` response the
value returned by `snap_upload` is `None` — the existing snapshot
identifier is not surfaced in its result, and the second call's return
value differs from the first (successful) call's. -/
theorem snap_upload_conflict_counterexample :
    (snap_upload ⟨true, ⟨400, some "API_SNAPSHOT_CONFLICT", some "snap-88", "body"⟩⟩).result
      = .ok none ∧
    (snap_upload ⟨true, ⟨200, none, none, "snap-88"⟩⟩).result = .ok (some "snap-88") ∧
    (Except.ok (none : Option String) : Except String (Option String))
      ≠ .ok (some "snap-88") :=
  ⟨rfl, rfl, by decide⟩

/-- Claim C2 as amended: on a 400 conflict response carrying an existing
snapshot identifier, `snap_upload` raises no exception and returns `None`;
the existing identifier is surfaced only on standard output, not in the
function's result, so the two calls of a repeated upload both succeed but
do not return the same identifier. -/
theorem snap_upload_conflict_no_raise (env : UploadEnv) (sid : String)
    (hv : env.versionOk = true) (hs : env.resp.status = 400)
    (hc : env.resp.errCode = some "API_SNAPSHOT_CONFLICT")
    (hd : env.resp.dataSnapshot = some sid) :
    (snap_upload env).result = .ok none ∧
    (snap_upload env).printed = some ("SNAPSHOT ID " ++ sid ++ " already uploaded") := by
  simp [snap_upload, hv, hs, hc, hd]

/-- Witness for `snap_upload_conflict_no_raise` at a concrete conflict
response. -/
theorem snap_upload_conflict_no_raise_witness :
    (snap_upload ⟨true, ⟨400, some "API_SNAPSHOT_CONFLICT", some "snap-77", "b"⟩⟩).result
      = .ok none ∧
    (snap_upload ⟨true, ⟨400, some "API_SNAPSHOT_CONFLICT", some "snap-77", "b"⟩⟩).printed
      = some ("SNAPSHOT ID " ++ "snap-77" ++ " already uploaded") :=
  snap_upload_conflict_no_raise
    ⟨true, ⟨400, some "API_SNAPSHOT_CONFLICT", some "snap-77", "b"⟩⟩
    "snap-77" rfl rfl rfl rfl

/-- Claim C3 counterexample: when the upload fails and the subsequent
deletion of the artifact also fails, the deletion exception escapes the
upload-failure handler to the outer handler, so the reported reason is the
deletion error, not the original upload error. -/
theorem deletion_error_masks_upload_error :
    (copy_single_snapshot
      { downloadOk := true, downloadErr := "", content := "tar bytes",
        uploadOk := false, uploadErr := "HTTP status 500",
        unlinkOk := false, unlinkErr := "Permission denied" } false).message
      = "Permission denied" ∧
    "Permission denied" ≠ "Upload failed: " ++ "HTTP status 500" :=
  ⟨rfl, by decide⟩

/-- Claim C3 as amended: when the upload step fails, the reported reason is
the original upload error whenever the file is kept or its deletion
succeeds; but when the deletion also fails, the deletion error masks the
upload error in the reported reason. -/
theorem upload_failure_reason (env : TransferEnv) (keep : Bool)
    (hd : env.downloadOk = true) (hu : env.uploadOk = false) :
    ((keep = true ∨ env.unlinkOk = true) →
      (copy_single_snapshot env keep).message = "Upload failed: " ++ env.uploadErr) ∧
    (keep = false → env.unlinkOk = false →
      (copy_single_snapshot env keep).message = env.unlinkErr) := by
  constructor
  · intro h
    rcases h with h | h
    · subst h; simp [copy_single_snapshot, hd, hu]
    · cases keep <;> simp [copy_single_snapshot, hd, hu, h]
  · intro hk hul
    subst hk
    simp [copy_single_snapshot, hd, hu, hul]

/-- Witness for `upload_failure_reason` at a concrete environment. -/
theorem upload_failure_reason_witness :
    ((false = true ∨ true = true) →
      (copy_single_snapshot
        { downloadOk := true, downloadErr := "", content := "c",
          uploadOk := false, uploadErr := "boom",
          unlinkOk := true, unlinkErr := "ue" } false).message
        = "Upload failed: " ++ "boom") ∧
    (false = false → true = false →
      (copy_single_snapshot
        { downloadOk := true, downloadErr := "", content := "c",
          uploadOk := false, uploadErr := "boom",
          unlinkOk := true, unlinkErr := "ue" } false).message = "ue") :=
  upload_failure_reason
    { downloadOk := true, downloadErr := "", content := "c",
      uploadOk := false, uploadErr := "boom",
      unlinkOk := true, unlinkErr := "ue" } false rfl rfl

/-- Claim C4 counterexample: with retention not requested, a transfer whose
upload succeeded but whose deletion step fails completes (the exception is
caught at the routine's boundary) with the artifact file still existing. -/
theorem artifact_survives_unlink_failure :
    (copy_single_snapshot
      { downloadOk := true, downloadErr := "", content := "tar bytes",
        uploadOk := true, uploadErr := "", unlinkOk := false,
        unlinkErr := "Permission denied" } false).fileState = some "tar bytes" ∧
    some "tar bytes" ≠ (none : Option String) :=
  ⟨rfl, by decide⟩

/-- Claim C4 as amended: after a single transfer that produced an artifact,
if retention was not requested and the deletion operation itself succeeds
the backing file does not exist, on success and on upload failure alike
(in `copy_single_snapshot` and in single-item `main`); if retention was
requested the file still exists with unchanged content; but a failing
deletion leaves the file in place. -/
theorem artifact_lifecycle (env : TransferEnv) (keep uploadOk : Bool)
    (hd : env.downloadOk = true) :
    (keep = false → env.unlinkOk = true →
      (copy_single_snapshot env keep).fileState = none) ∧
    (keep = true →
      (copy_single_snapshot env keep).fileState = some env.content) ∧
    (main_single .ok uploadOk true false).fileExists = false ∧
    (main_single .ok uploadOk env.unlinkOk true).fileExists = true := by
  refine ⟨?_, ?_, ?_, ?_⟩
  · rintro rfl hul
    cases hu : env.uploadOk <;> simp [copy_single_snapshot, hd, hul, hu]
  · rintro rfl
    cases hu : env.uploadOk <;> simp [copy_single_snapshot, hd, hu]
  · cases uploadOk <;> rfl
  · cases uploadOk <;> rfl

/-- Witness for `artifact_lifecycle` at a concrete environment. -/
theorem artifact_lifecycle_witness :
    ((false = false → true = true →
      (copy_single_snapshot
        { downloadOk := true, downloadErr := "", content := "tar bytes",
          uploadOk := true, uploadErr := "", unlinkOk := true,
          unlinkErr := "" } false).fileState = none) ∧
    (false = true →
      (copy_single_snapshot
        { downloadOk := true, downloadErr := "", content := "tar bytes",
          uploadOk := true, uploadErr := "", unlinkOk := true,
          unlinkErr := "" } false).fileState = some "tar bytes") ∧
    (main_single .ok true true false).fileExists = false ∧
    (main_single .ok true true true).fileExists = true) :=
  artifact_lifecycle
    { downloadOk := true, downloadErr := "", content := "tar bytes",
      uploadOk := true, uploadErr := "", unlinkOk := true, unlinkErr := "" }
    false true rfl

/-- Claim C5: the batch loop records each selected snapshot in exactly one
of the two result partitions — an item whose transfer fails (any failure or
exception, all caught inside `copy_single_snapshot`) is recorded as a
failure with its message and does not stop later items from being
processed — and the partition sizes sum to the number of selected
snapshots. -/
theorem batch_isolation {α : Type} (envOf : α → TransferEnv) (keep : Bool)
    (snaps : List α) :
    (run_batch (fun s => ((copy_single_snapshot (envOf s) keep).success,
        (copy_single_snapshot (envOf s) keep).message)) snaps) =
      (snaps.filter (fun s => (copy_single_snapshot (envOf s) keep).success),
       (snaps.filter (fun s => !(copy_single_snapshot (envOf s) keep).success)).map
         (fun s => (s, (copy_single_snapshot (envOf s) keep).message))) ∧
    (snaps.filter (fun s => (copy_single_snapshot (envOf s) keep).success)).length +
      (snaps.filter (fun s => !(copy_single_snapshot (envOf s) keep).success)).length
        = snaps.length :=
  ⟨run_batch_spec _ _, length_filter_not _ _⟩

/-- Claim C6: the documented selection-parsing examples on a 10-item
catalog. -/
theorem parse_selection_examples :
    parse_selection "1,3,5" 10 = [0, 2, 4] ∧
    parse_selection "1-3,5" 10 = [0, 1, 2, 4] ∧
    parse_selection "0,11" 10 = [] ∧
    parse_selection "2-2" 10 = [1] := by decide

/-- Claim C7: for every selection string and catalog size, the parsed
selection is strictly increasing (sorted with duplicates collapsed) and
every element is a 0-based index below the catalog size. -/
theorem parse_selection_invariant (s : String) (N : Nat) :
    List.Sorted (· < ·) (parse_selection s N) ∧ ∀ x ∈ parse_selection s N, x < N :=
  ⟨parse_selection_sorted s N, fun _ hx => parse_selection_bound hx⟩

/-- Witness for `parse_selection_invariant` at a concrete selection. -/
theorem parse_selection_invariant_witness :
    List.Sorted (· < ·) (parse_selection "3,1-2" 10) ∧ (2 : Nat) < 10 :=
  ⟨(parse_selection_invariant "3,1-2" 10).1,
   (parse_selection_invariant "3,1-2" 10).2 2 (by decide)⟩

/-- Claim C9: the snapshots processed in batch mode form a sublist of the
date-sorted displayed listing (so they are processed in listing order), and
the parsed selection — hence the processing order — is unchanged under any
permutation of the comma-separated parts of the selection string. -/
theorem batch_processing_order (α : Type) (listing : List α) (sel : String)
    (s₁ s₂ : String) (N : Nat)
    (hp : List.Perm (splitOnComma (stripSpaces s₁)) (splitOnComma (stripSpaces s₂))) :
    List.Sublist (selected_snapshots listing sel) listing ∧
    parse_selection s₁ N = parse_selection s₂ N :=
  ⟨selected_snapshots_sublist listing sel, parse_selection_parts_perm s₁ s₂ N hp⟩

/-- Witness for `batch_processing_order` at a concrete listing and a
concrete pair of selection strings with permuted parts. -/
theorem batch_processing_order_witness :
    List.Sublist (selected_snapshots [10, 20, 30] "2,1") [10, 20, 30] ∧
    parse_selection "2,1" 3 = parse_selection "1,2" 3 :=
  batch_processing_order Nat [10, 20, 30] "2,1" "2,1" "1,2" 3 (by decide)

/-- Claim C10: a range token with trailing characters after a valid `a-b`
prefix is expanded as if the trailing characters were absent, and a
reversed range contributes no indices. -/
theorem parse_selection_lenient_ranges :
    parse_selection "1-3x" 10 = [0, 1, 2] ∧
    parse_selection "1-2-3" 10 = [0, 1] ∧
    parse_selection "5-3" 10 = [] := by decide

/-- Claim C8 counterexample: `"(1,2,3)"` is a string input on which
`parse_auth` returns neither the input unchanged nor a 2-element pair but
a 3-tuple. -/
theorem parse_auth_nonpair_counterexample :
    parse_auth (.str "(1,2,3)") = .ok (.tuple [.int 1, .int 2, .int 3]) ∧
    PyValue.tuple [.int 1, .int 2, .int 3] ≠ PyValue.str "(1,2,3)" ∧
    [PyValue.int 1, .int 2, .int 3].length ≠ 2 :=
  ⟨rfl, fun h => PyValue.noConfusion h, by decide⟩

/-- Claim C8 as amended: any string not both starting with `(` and ending
with `)` is returned unchanged; `"('admin','secret')"` yields the pair
`('admin', 'secret')`; a tuple-shaped string that fails to parse falls back
to being returned unchanged rather than raising; a non-string input fails
with a type error; but a string that parses as some other parenthesized
literal is returned as that literal, which need not be a 2-element pair. -/
theorem parse_auth_amended (s : String) (v : PyValue)
    (hshape : (startsWithParen s && endsWithParen s) = false)
    (hnonstr : v.isStr = false) :
    parse_auth (.str s) = .ok (.str s) ∧
    parse_auth (.str "('admin','secret')")
      = .ok (.tuple [.str "admin", .str "secret"]) ∧
    parse_auth (.str "(not a tuple)") = .ok (.str "(not a tuple)") ∧
    parse_auth v = .error "auth must be a string." := by
  refine ⟨?_, rfl, rfl, ?_⟩
  · simp [parse_auth, hshape]
  · cases v with
    | str t => simp [PyValue.isStr] at hnonstr
    | int n => rfl
    | tuple l => rfl

/-- Witness for `parse_auth_amended` at a concrete token string and a
concrete non-string input. -/
theorem parse_auth_amended_witness :
    parse_auth (.str "token123") = .ok (.str "token123") ∧
    parse_auth (.str "('admin','secret')")
      = .ok (.tuple [.str "admin", .str "secret"]) ∧
    parse_auth (.str "(not a tuple)") = .ok (.str "(not a tuple)") ∧
    parse_auth (.int 0) = .error "auth must be a string." :=
  parse_auth_amended "token123" (.int 0) rfl rfl

end IpfCopySnapshot
